import Mathlib

/-!
Verification development for the delta-kernel-rs core: a shallow embedding of
the schema model, the columnar extraction engine
(kernel/src/simple_client/data.rs), the action schema registry
(kernel/src/actions/schemas.rs), the derive-macro naming transform
(derive-macros/src/lib.rs), the simple parquet handler
(kernel/src/simple_client/parquet.rs) and the FFI iteration / handle layer
(ffi/src/scan.rs), together with theorems settling the stated properties.
-/

namespace DeltaKernel

/-! ## Kernel schema model

Mirrors the kernel `DataType` / `StructField` / `StructType` shapes as used by
the extraction engine and the action schema registry.  A `StructField` is the
triple (name, data type, nullable). -/

/-- Primitive kernel types appearing in the extraction match table and the
action schemas: Boolean, Integer, Long, String. -/
inductive PrimitiveType where
  | boolean
  | integer
  | long
  | string
deriving DecidableEq

/-- Kernel schema data types.  `struct` carries its ordered field list, where a
field is (name, dataType, nullable); `array` carries the element type and
`containsNull`; `map` carries key type, value type and `valueContainsNull`. -/
inductive DataType where
  | primitive (p : PrimitiveType)
  | struct (fields : List (String × DataType × Bool))
  | array (elementType : DataType) (containsNull : Bool)
  | map (keyType : DataType) (valueType : DataType) (valueContainsNull : Bool)

/-- A schema struct field: (name, data type, nullable). -/
abbrev StructField : Type := String × DataType × Bool

/-- Field name accessor. -/
def StructField.name (f : StructField) : String := f.1

/-- Field data type accessor. -/
def StructField.dataType (f : StructField) : DataType := f.2.1

/-- Field nullability accessor (`StructField::is_nullable`). -/
def StructField.isNullable (f : StructField) : Bool := f.2.2

/-- A `StructType` is its ordered list of fields. -/
abbrev StructType : Type := List StructField

/-! ## Arrow-side model

The native columnar representation the simple client extracts from.  Only the
structure relevant to `extract_columns_from_array` is modelled: each column
knows its arrow data type, and struct columns carry named children. -/

/-- Arrow data types appearing in the extraction engine's match. -/
inductive ArrowDataType where
  | null
  | boolean
  | utf8
  | int32
  | int64
  | list (elem : ArrowDataType)
  | map (key : ArrowDataType) (value : ArrowDataType)
  | struct (fields : List (String × ArrowDataType))

/-- An arrow column (an `Array` in arrow terms).  Struct columns carry their
named child columns; list and map columns carry their element typing. -/
inductive ArrowColumn where
  | nullCol
  | boolCol
  | utf8Col
  | int32Col
  | int64Col
  | listCol (elem : ArrowDataType)
  | mapCol (key : ArrowDataType) (value : ArrowDataType)
  | structCol (children : List (String × ArrowColumn))

/-- A container that provides columns by name (`ProvidesColumnByName`):
both a `RecordBatch` and a `StructArray` are an ordered list of named
columns. -/
abbrev Container : Type := List (String × ArrowColumn)

mutual

/-- The arrow data type of a column (`Array::data_type`). -/
def arrowTypeOf : ArrowColumn → ArrowDataType
  | .nullCol => .null
  | .boolCol => .boolean
  | .utf8Col => .utf8
  | .int32Col => .int32
  | .int64Col => .int64
  | .listCol e => .list e
  | .mapCol k v => .map k v
  | .structCol children => .struct (arrowTypesOf children)

/-- Arrow data types of a named column list. -/
def arrowTypesOf : List (String × ArrowColumn) → List (String × ArrowDataType)
  | [] => []
  | c :: rest => (c.1, arrowTypeOf c.2) :: arrowTypesOf rest

end

/-- `ProvidesColumnByName::column_by_name`: first column with the given
name. -/
def column_by_name (c : Container) (name : String) : Option ArrowColumn :=
  c.lookup name

mutual

/-- Structural equality of arrow data types (the arrow `PartialEq`). -/
def arrowEq : ArrowDataType → ArrowDataType → Bool
  | .null, .null => true
  | .boolean, .boolean => true
  | .utf8, .utf8 => true
  | .int32, .int32 => true
  | .int64, .int64 => true
  | .list a, .list b => arrowEq a b
  | .map k1 v1, .map k2 v2 => arrowEq k1 k2 && arrowEq v1 v2
  | .struct f1, .struct f2 => arrowFieldsEq f1 f2
  | _, _ => false

/-- Structural equality of arrow field lists. -/
def arrowFieldsEq : List (String × ArrowDataType) → List (String × ArrowDataType) → Bool
  | [], [] => true
  | (n1, t1) :: r1, (n2, t2) :: r2 => n1 == n2 && arrowEq t1 t2 && arrowFieldsEq r1 r2
  | _, _ => false

end

/-! ## Rendering and schema-to-arrow conversion

Modelled from the spec: the kernel renders a `DataType` into the columnar
engine's native type system (spec 4.1, "render/parse type to/from the columnar
engine's native type system") and displays types in error messages; the
`TryInto<ArrowDataType> for DataType` conversion and the `Display` instances
live in the kernel crate outside the extracted sources. -/

mutual

/-- Modelled from the spec: display rendering of a kernel `DataType`, used in
extraction error messages (the kernel `Display` impl is outside the extracted
sources). -/
def renderDataType : DataType → String
  | .primitive .boolean => "boolean"
  | .primitive .integer => "integer"
  | .primitive .long => "long"
  | .primitive .string => "string"
  | .struct fields => "struct<" ++ renderStructFields fields ++ ">"
  | .array e _ => "array<" ++ renderDataType e ++ ">"
  | .map k v _ => "map<" ++ renderDataType k ++ ", " ++ renderDataType v ++ ">"

/-- Renders a comma-separated field list of a struct type. -/
def renderStructFields : List (String × DataType × Bool) → String
  | [] => ""
  | (n, t, _) :: rest =>
    n ++ ": " ++ renderDataType t ++
      (if rest.isEmpty then "" else ", ") ++ renderStructFields rest

end

mutual

/-- Modelled from the spec: display rendering of an arrow data type, used in
extraction error messages. -/
def renderArrowType : ArrowDataType → String
  | .null => "Null"
  | .boolean => "Boolean"
  | .utf8 => "Utf8"
  | .int32 => "Int32"
  | .int64 => "Int64"
  | .list e => "List<" ++ renderArrowType e ++ ">"
  | .map k v => "Map<" ++ renderArrowType k ++ ", " ++ renderArrowType v ++ ">"
  | .struct fields => "Struct<" ++ renderArrowFields fields ++ ">"

/-- Renders a comma-separated arrow field list. -/
def renderArrowFields : List (String × ArrowDataType) → String
  | [] => ""
  | (n, t) :: rest =>
    n ++ ": " ++ renderArrowType t ++
      (if rest.isEmpty then "" else ", ") ++ renderArrowFields rest

end

mutual

/-- Modelled from the spec: the two-way rendering of a kernel `DataType` into
the native arrow type system (`TryInto<ArrowDataType>`, spec 4.1); it lives in
the kernel crate outside the extracted sources.  Fallible, mirroring the Rust
`Result` signature. -/
def toArrow : DataType → Except String ArrowDataType
  | .primitive .boolean => .ok .boolean
  | .primitive .string => .ok .utf8
  | .primitive .integer => .ok .int32
  | .primitive .long => .ok .int64
  | .struct fields =>
    match toArrowFields fields with
    | .ok fs => .ok (.struct fs)
    | .error e => .error e
  | .array e _ =>
    match toArrow e with
    | .ok a => .ok (.list a)
    | .error err => .error err
  | .map k v _ =>
    match toArrow k, toArrow v with
    | .ok ka, .ok va => .ok (.map ka va)
    | .error err, _ => .error err
    | _, .error err => .error err

/-- Converts a kernel field list into arrow fields. -/
def toArrowFields : List (String × DataType × Bool) → Except String (List (String × ArrowDataType))
  | [] => .ok []
  | (n, t, _) :: rest =>
    match toArrow t, toArrowFields rest with
    | .ok a, .ok as_ => .ok ((n, a) :: as_)
    | .error err, _ => .error err
    | _, .error err => .error err

end

/-! ## Errors and accessors -/

/-- Kernel errors produced by the extraction engine
(`Error::MissingData`, `Error::UnexpectedColumnType`). -/
inductive Error where
  | missingData (msg : String)
  | unexpectedColumnType (msg : String)
deriving DecidableEq

/-- A leaf accessor pushed onto the output column array: either the null
placeholder (`&()`) or a typed view of a concrete column
(`as_boolean`, `as_string`, `as_primitive`, `as_list`, `as_map`). -/
inductive GetDataRef where
  | nullAcc
  | boolAcc (col : ArrowColumn)
  | stringAcc (col : ArrowColumn)
  | int32Acc (col : ArrowColumn)
  | int64Acc (col : ArrowColumn)
  | listAcc (col : ArrowColumn)
  | mapAcc (col : ArrowColumn)

/-- The message built for a required field found missing
(`Error::MissingData(format!("Found required field {}, but it's null", ...))`). -/
def msgMissingRequired (name : String) : String :=
  "Found required field " ++ name ++ ", but it's null"

/-- The "both types resolve but differ" message of `get_error_for_types`
("Type mismatch on {field_name}: expected {data_type}, got {arrow_data_type}"). -/
def msgMismatch (field_name : String) (d : DataType) (a : ArrowDataType) : String :=
  "Type mismatch on " ++ field_name ++ ": expected " ++ renderDataType d ++
    ", got " ++ renderArrowType a

/-- The "representation matches but extraction unsupported" message of
`get_error_for_types`
("On {field_name}: Don't know how to extract something of type {data_type}"). -/
def msgCannotExtract (field_name : String) (d : DataType) : String :=
  "On " ++ field_name ++ ": Don't know how to extract something of type " ++
    renderDataType d

/-- The "declared type has no native representation" message of
`get_error_for_types`
("On {field_name}: Unsupported data type {data_type}: {e}"). -/
def msgUnsupported (field_name : String) (d : DataType) (e : String) : String :=
  "On " ++ field_name ++ ": Unsupported data type " ++ renderDataType d ++ ": " ++ e

/-- `get_error_for_types`: builds the type-mismatch error, converting the
declared type to its arrow representation to decide which of the three
diagnostics applies. -/
def get_error_for_types (data_type : DataType) (arrow_data_type : ArrowDataType)
    (field_name : String) : Error :=
  match toArrow data_type with
  | .ok expected_type =>
    if arrowEq expected_type arrow_data_type then
      .unexpectedColumnType (msgCannotExtract field_name data_type)
    else
      .unexpectedColumnType (msgMismatch field_name data_type arrow_data_type)
  | .error e =>
    .unexpectedColumnType (msgUnsupported field_name data_type e)

/-! ## The extraction engine

`SimpleData::extract_columns_from_array` and `SimpleData::extract_column`.
The per-field loop body is split out as `extract_field` so the per-field
behaviour can be stated directly; `extract_columns_from_array` folds it over
the schema, short-circuiting on the first error exactly as the `?` operator
does. -/

/-- The column lookup of the per-field loop:
`array.and_then(|a| a.column_by_name(name)).filter(|a| data_type != Null)` —
a found column whose arrow type is exactly `Null` is treated as not found. -/
def lookup_column (array : Option Container) (name : String) : Option ArrowColumn :=
  (array.bind fun a => column_by_name a name).filter
    fun a => !arrowEq (arrowTypeOf a) ArrowDataType.null

mutual

/-- `SimpleData::extract_columns_from_array`: walks the schema fields in
order, appending each field's leaf accessors, failing on the first error. -/
def extract_columns_from_array (fields : List StructField) (array : Option Container) :
    Except Error (List GetDataRef) :=
  match fields with
  | [] => .ok []
  | f :: rest =>
    match extract_field f array with
    | .error e => .error e
    | .ok accs =>
      match extract_columns_from_array rest array with
      | .error e => .error e
      | .ok accs2 => .ok (accs ++ accs2)

/-- The body of the `extract_columns_from_array` loop for one field: look the
column up (treating arrow `Null` columns as absent); if found, extract it; if
not found and the container is absent or the field nullable, recurse with an
absent container for a struct field or push one null accessor otherwise; if
not found and the field is required with a present container, fail with
`MissingData`. -/
def extract_field (f : StructField) (array : Option Container) :
    Except Error (List GetDataRef) :=
  match f with
  | (name, dt, nullable) =>
    match lookup_column array name with
    | some col => extract_column (name, dt, nullable) col
    | none =>
      if array.isNone || nullable then
        match dt with
        | .struct inner => extract_columns_from_array inner none
        | _ => .ok [.nullAcc]
      else
        .error (.missingData (msgMissingRequired name))

/-- `SimpleData::extract_column`: matches the found column's arrow type
against the field's declared type; struct/struct recurses into the children,
each primitive/list/map pairing pushes one typed accessor, and anything else
fails via `get_error_for_types`. -/
def extract_column (f : StructField) (col : ArrowColumn) :
    Except Error (List GetDataRef) :=
  match f, col with
  | (_, .struct inner, _), .structCol children =>
    extract_columns_from_array inner (some children)
  | (_, .primitive .boolean, _), .boolCol => .ok [.boolAcc .boolCol]
  | (_, .primitive .string, _), .utf8Col => .ok [.stringAcc .utf8Col]
  | (_, .primitive .integer, _), .int32Col => .ok [.int32Acc .int32Col]
  | (_, .primitive .long, _), .int64Col => .ok [.int64Acc .int64Col]
  | (_, .array _ _, _), .listCol e => .ok [.listAcc (.listCol e)]
  | (_, .map _ _ _, _), .mapCol k v => .ok [.mapAcc (.mapCol k v)]
  | (name, dt, _), c => .error (get_error_for_types dt (arrowTypeOf c) name)

end

/-- Number of leaf accessors a field list contributes: a struct field
contributes the leaves of its children, any other field exactly one. -/
def leafCountFields (fields : List StructField) : Nat :=
  match fields with
  | [] => 0
  | (_, dt, _) :: rest =>
    (match dt with
     | .struct inner => leafCountFields inner
     | _ => 1) + leafCountFields rest

/-! ## Action schema registry (kernel/src/actions/schemas.rs)

One constant `StructField` per action record kind, translated verbatim, plus
the shared composite helpers and the log schema. -/

/-- `DataType::STRING`. -/
def DataType.STRING : DataType := .primitive .string

/-- `DataType::LONG`. -/
def DataType.LONG : DataType := .primitive .long

/-- `DataType.INTEGER`. -/
def DataType.INTEGER : DataType := .primitive .integer

/-- `DataType::BOOLEAN`. -/
def DataType.BOOLEAN : DataType := .primitive .boolean

/-- `tags_field()`: the shared `tags` map field. -/
def tags_field : StructField :=
  ("tags", .map DataType.STRING DataType.STRING true, true)

/-- `partition_values_field()`: the shared `partitionValues` map field. -/
def partition_values_field : StructField :=
  ("partitionValues", .map DataType.STRING DataType.STRING true, false)

/-- `deletion_vector_field()`: the shared `deletionVector` struct field. -/
def deletion_vector_field : StructField :=
  ("deletionVector",
   .struct [
     ("storageType", DataType.STRING, false),
     ("pathOrInlineDv", DataType.STRING, false),
     ("offset", DataType.INTEGER, true),
     ("sizeInBytes", DataType.INTEGER, false),
     ("cardinality", DataType.LONG, false)],
   true)

/-- `METADATA_FIELD`: the `metaData` action field. -/
def METADATA_FIELD : StructField :=
  ("metaData",
   .struct [
     ("id", DataType.STRING, false),
     ("name", DataType.STRING, true),
     ("description", DataType.STRING, true),
     ("format",
      .struct [
        ("provider", DataType.STRING, false),
        ("options", .map DataType.STRING DataType.STRING true, true)],
      false),
     ("schemaString", DataType.STRING, false),
     ("partitionColumns", .array DataType.STRING false, false),
     ("createdTime", DataType.LONG, true),
     ("configuration", .map DataType.STRING DataType.STRING true, false)],
   true)

/-- `PROTOCOL_FIELD`: the `protocol` action field. -/
def PROTOCOL_FIELD : StructField :=
  ("protocol",
   .struct [
     ("minReaderVersion", DataType.INTEGER, false),
     ("minWriterVersion", DataType.INTEGER, false),
     ("readerFeatures", .array DataType.STRING false, true),
     ("writerFeatures", .array DataType.STRING false, true)],
   true)

/-- `COMMIT_INFO_FIELD`: the `commitInfo` action field. -/
def COMMIT_INFO_FIELD : StructField :=
  ("commitInfo",
   .struct [
     ("timestamp", DataType.LONG, false),
     ("operation", DataType.STRING, false),
     ("isolationLevel", DataType.STRING, true),
     ("isBlindAppend", DataType.BOOLEAN, true),
     ("txnId", DataType.STRING, true),
     ("readVersion", DataType.LONG, true),
     ("operationParameters", .map DataType.STRING DataType.STRING true, true),
     ("operationMetrics", .map DataType.STRING DataType.STRING true, true)],
   true)

/-- `ADD_FIELD`: the `add` action field. -/
def ADD_FIELD : StructField :=
  ("add",
   .struct [
     ("path", DataType.STRING, false),
     partition_values_field,
     ("size", DataType.LONG, false),
     ("modificationTime", DataType.LONG, false),
     ("dataChange", DataType.BOOLEAN, false),
     ("stats", DataType.STRING, true),
     tags_field,
     deletion_vector_field,
     ("baseRowId", DataType.LONG, true),
     ("defaultRowCommitVersion", DataType.LONG, true),
     ("clusteringProvider", DataType.STRING, true)],
   true)

/-- `REMOVE_FIELD`: the `remove` action field. -/
def REMOVE_FIELD : StructField :=
  ("remove",
   .struct [
     ("path", DataType.STRING, false),
     ("deletionTimestamp", DataType.LONG, true),
     ("dataChange", DataType.BOOLEAN, false),
     ("extendedFileMetadata", DataType.BOOLEAN, true),
     partition_values_field,
     ("size", DataType.LONG, true),
     ("stats", DataType.STRING, true),
     tags_field,
     deletion_vector_field,
     ("baseRowId", DataType.LONG, true),
     ("defaultRowCommitVersion", DataType.LONG, true)],
   true)

/-- `REMOVE_FIELD_CHECKPOINT`: the reduced `remove` field for checkpoints. -/
def REMOVE_FIELD_CHECKPOINT : StructField :=
  ("remove",
   .struct [
     ("path", DataType.STRING, false),
     ("deletionTimestamp", DataType.LONG, true),
     ("dataChange", DataType.BOOLEAN, false)],
   true)

/-- `CDC_FIELD`: the `cdc` action field. -/
def CDC_FIELD : StructField :=
  ("cdc",
   .struct [
     ("path", DataType.STRING, false),
     partition_values_field,
     ("size", DataType.LONG, false),
     ("dataChange", DataType.BOOLEAN, false),
     tags_field],
   true)

/-- `TXN_FIELD`: the `txn` action field. -/
def TXN_FIELD : StructField :=
  ("txn",
   .struct [
     ("appId", DataType.STRING, false),
     ("version", DataType.LONG, false),
     ("lastUpdated", DataType.LONG, true)],
   true)

/-- `DOMAIN_METADATA_FIELD`: the `domainMetadata` action field. -/
def DOMAIN_METADATA_FIELD : StructField :=
  ("domainMetadata",
   .struct [
     ("domain", DataType.STRING, false),
     ("configuration", .map DataType.STRING DataType.STRING true, false),
     ("removed", DataType.BOOLEAN, false)],
   true)

/-- `CHECKPOINT_METADATA_FIELD`: the `checkpointMetadata` action field. -/
def CHECKPOINT_METADATA_FIELD : StructField :=
  ("checkpointMetadata",
   .struct [
     ("flavor", DataType.STRING, false),
     tags_field],
   true)

/-- `SIDECAR_FIELD`: the `sidecar` action field. -/
def SIDECAR_FIELD : StructField :=
  ("sidecar",
   .struct [
     ("path", DataType.STRING, false),
     ("sizeInBytes", DataType.LONG, false),
     ("modificationTime", DataType.LONG, false),
     ("type", DataType.STRING, false),
     tags_field],
   true)

/-- `LOG_SCHEMA`: the struct type used when an engine does not know which
action variant a log record holds. -/
def LOG_SCHEMA : StructType :=
  [ADD_FIELD,
   CDC_FIELD,
   COMMIT_INFO_FIELD,
   DOMAIN_METADATA_FIELD,
   METADATA_FIELD,
   PROTOCOL_FIELD,
   REMOVE_FIELD,
   TXN_FIELD]

/-! ## Derive-macro naming transform (derive-macros/src/lib.rs) -/

/-- The character loop of `get_schema_name`: for each character, `_` is
dropped and arms the capitalization flag; a character following with the flag
armed is ASCII-uppercased and clears the flag; any other character is kept. -/
def getSchemaNameGo : Bool → List Char → List Char
  | _, [] => []
  | nextCaps, c :: rest =>
    if c = '_' then getSchemaNameGo true rest
    else if nextCaps then c.toUpper :: getSchemaNameGo false rest
    else c :: getSchemaNameGo false rest

/-- `get_schema_name`: converts a snake_case identifier to the camelCase wire
name by filtering its characters with an initially unarmed flag. -/
def get_schema_name (name : String) : String :=
  ⟨getSchemaNameGo false name.data⟩

/-- The wire-name transform exactly as the spec words it: delete every `_`
and capitalize the ASCII letter immediately following each deleted `_` (i.e.
each kept character is uppercased precisely when the character immediately
before it in the input is `_`), and nothing else. -/
def wire_name_spec (s : String) : String :=
  ⟨(s.data.zip (' ' :: s.data)).filterMap fun p =>
    if p.1 = '_' then none
    else if p.2 = '_' then some p.1.toUpper
    else some p.1⟩

/-! ## Simple parquet handler (kernel/src/simple_client/parquet.rs)

`read_parquet_files` performs file I/O through
`SimpleData::try_create_from_parquet`; the reader is therefore a parameter of
the embedding, and the handler's own logic (the empty-input short circuit and
the location-by-location mapping) is translated directly. -/

/-- `FileMeta`: the part used by the handler (its location URL). -/
structure FileMeta where
  location : String
deriving DecidableEq

/-- `SimpleParquetHandler::read_parquet_files`, parameterized by the
file-reading collaborator `tryCreateFromParquet` and the data it produces. -/
def read_parquet_files {α : Type} (tryCreateFromParquet : StructType → String → Except Error α)
    (files : List FileMeta) (schema : StructType) :
    Except Error (List (Except Error α)) :=
  if files.isEmpty then .ok []
  else
    let locations := files.map (fun file => file.location)
    .ok (locations.map fun location => tryCreateFromParquet schema location)

/-! ## EngineList for GenericListArray (kernel/src/simple_client/data.rs) -/

/-- A `GenericListArray<i32>` of string lists: one list of values per row. -/
structure GenericListArrayI32 where
  rows : List (List String)

/-- `EngineList::len`: the length of the row's list. -/
def EngineList.len (a : GenericListArrayI32) (row_index : Nat) : Nat :=
  (a.rows.getD row_index []).length

/-- `EngineList::get`: the element at `index` within the row's list. -/
def EngineList.get (a : GenericListArrayI32) (row_index : Nat) (index : Nat) : String :=
  (a.rows.getD row_index []).getD index ""

/-- The push loop of `EngineList::materialize` after `n` iterations. -/
def EngineList.materializeGo (a : GenericListArrayI32) (row_index : Nat) : Nat → List String
  | 0 => []
  | n + 1 => EngineList.materializeGo a row_index n ++ [EngineList.get a row_index n]

/-- `EngineList::materialize`: pushes `get(row_index, i)` for each
`i in 0..len(row_index)`. -/
def EngineList.materialize (a : GenericListArrayI32) (row_index : Nat) : List String :=
  EngineList.materializeGo a row_index (EngineList.len a row_index)

/-! ## FFI boundary handles and iteration (ffi/src/scan.rs)

Opaque handles crossing the boundary are modelled as numbered live boxes:
`BoxHandle::into_handle` allocates a fresh handle id, `BoxHandle::drop_handle`
removes it from the live set.  Caller-supplied callbacks are modelled by
recording the arguments they are invoked with. -/

/-- The set of live boundary handles plus a fresh-id counter. -/
structure HandleState where
  next : Nat
  live : List Nat
deriving DecidableEq

/-- `BoxHandle::into_handle`: leaks a fresh box, returning its handle. -/
def intoHandle (s : HandleState) : Nat × HandleState :=
  (s.next, ⟨s.next + 1, s.next :: s.live⟩)

/-- `BoxHandle::drop_handle`: reclaims and frees the handle's box. -/
def dropHandle (s : HandleState) (h : Nat) : HandleState :=
  ⟨s.next, s.live.erase h⟩

/-- The outcome of one `kernel_scan_data_next` call: the updated handle
state, the remaining underlying sequence, the visitor invocations made (each
carrying the transient batch handle and the item it wrapped), and the
returned flag or error. -/
structure ScanDataNextResult (α : Type) where
  handles : HandleState
  rest : List (Except String α)
  calls : List (Nat × α)
  ret : Except String Bool

/-- `kernel_scan_data_next_impl`: pulls the next underlying result; on an
item it wraps the batch in a transient `EngineDataHandle`, invokes the
engine visitor once with it, drops the handle and returns `true`; on
exhaustion it returns `false` without invoking the visitor; an underlying
error is propagated by `?`. -/
def kernel_scan_data_next_impl {α : Type} (s : HandleState)
    (data : List (Except String α)) : ScanDataNextResult α :=
  match data with
  | [] => ⟨s, [], [], .ok false⟩
  | .error e :: rest => ⟨s, rest, [], .error e⟩
  | .ok item :: rest =>
    let (data_handle, s1) := intoHandle s
    let s2 := dropHandle s1 data_handle
    ⟨s2, rest, [(data_handle, item)], .ok true⟩

/-- The `Add` action as consumed by the file iterator (its path). -/
structure Add where
  path : String
deriving DecidableEq

/-- The outcome of one `kernel_scan_files_next` call: the remaining
underlying sequence, the visitor invocations made (each carrying the file
path handed to the engine), and the returned flag or error. -/
structure ScanFilesNextResult where
  rest : List (Except String Add)
  calls : List String
  ret : Except String Bool

/-- `kernel_scan_files_next_impl`: pulls the next underlying result; on a
file entry it invokes the engine visitor once with the file's path and
returns `true`; on exhaustion it returns `false` without invoking the
visitor; an underlying error is propagated by `?`. -/
def kernel_scan_files_next_impl (files : List (Except String Add)) :
    ScanFilesNextResult :=
  match files with
  | [] => ⟨[], [], .ok false⟩
  | .error e :: rest => ⟨rest, [], .error e⟩
  | .ok add :: rest => ⟨rest, [add.path], .ok true⟩

/-- One invocation of the engine's per-file callback: the path and size it
received together with the transient deletion-vector handle and the transient
partition-value-map handle. -/
structure ScanFileCallbackCall where
  path : String
  size : Int
  dvHandle : Nat
  mapHandle : Nat
deriving DecidableEq

/-- `rust_callback`: wraps the per-file arguments for the engine callback,
allocating a transient `CDvInfo` handle and a transient `CStringMap` handle,
invokes the callback once, then drops the `CDvInfo` handle. -/
def rust_callback {δ : Type} (s : HandleState) (path : String) (size : Int)
    (_dv_info : δ) (_partition_values : List (String × String)) :
    HandleState × ScanFileCallbackCall :=
  let (dv_handle, s1) := intoHandle s
  let (partition_map_handle, s2) := intoHandle s1
  let call : ScanFileCallbackCall := ⟨path, size, dv_handle, partition_map_handle⟩
  let s3 := dropHandle s2 dv_handle
  (s3, call)

/-! ## Deletion vector resolution

Modelled from the spec: `DvInfo::get_selection_vector` and the deletion
vector resolution algorithm live in the kernel crate outside the extracted
sources; the FFI `selection_vector_from_dv` only forwards to them.  Per spec
4.7, resolution of an absent descriptor answers "file fully live" (`none`)
without calling the resolver; a present descriptor is dereferenced and
decoded into a per-row bitmap whose set bits mark deleted rows, and
`popcount == cardinality` is validated, a mismatch being a
`MalformedDeletionVector` data-integrity error. -/

/-- The deletion vector descriptor (spec 3): storage type, path or inline
payload, optional offset, size and the declared cardinality. -/
structure DeletionVectorDescriptor where
  storageType : String
  pathOrInlineDv : String
  offset : Option Int
  sizeInBytes : Int
  cardinality : Nat
deriving DecidableEq

/-- Deletion-vector resolution errors. -/
inductive DvError where
  | malformedDeletionVector (msg : String)
  | ioError (msg : String)
deriving DecidableEq

/-- Modelled from the spec: deletion-vector resolution.  `readBitmap` stands
for the excluded dereference-and-decode collaborator (inline payload or
external file access).  `none` in means all rows live, answered without
invoking `readBitmap`; a decoded bitmap is returned only when its popcount
equals the declared cardinality, otherwise resolution fails with
`MalformedDeletionVector`. -/
def resolve_dv (readBitmap : DeletionVectorDescriptor → Except String (List Bool))
    (dv : Option DeletionVectorDescriptor) : Except DvError (Option (List Bool)) :=
  match dv with
  | none => .ok none
  | some descriptor =>
    match readBitmap descriptor with
    | .error e => .error (.ioError e)
    | .ok bits =>
      if bits.count true = descriptor.cardinality then .ok (some bits)
      else
        .error (.malformedDeletionVector
          ("Deletion vector popcount does not match declared cardinality"))

/-- The exhaustive (native, declared) match table of `extract_column`:
Boolean-Boolean, Utf8-String, Int32-Integer, Int64-Long, List-Array,
Map-Map, Struct-Struct; every other pairing is outside the table. -/
def matchesExtractTable (a : ArrowDataType) (d : DataType) : Bool :=
  match a, d with
  | .struct _, .struct _ => true
  | .boolean, .primitive .boolean => true
  | .utf8, .primitive .string => true
  | .int32, .primitive .integer => true
  | .int64, .primitive .long => true
  | .list _, .array _ _ => true
  | .map _ _, .map _ _ _ => true
  | _, _ => false

/-! ## Theorems -/

/-- The flag threaded through `getSchemaNameGo` is armed exactly when the
previous input character was an underscore, so the fold coincides with the
previous-character formulation of the wire-name transform. -/
theorem getSchemaNameGo_eq_zip (l : List Char) : ∀ p : Char,
    getSchemaNameGo (p == '_') l =
      (l.zip (p :: l)).filterMap (fun q =>
        if q.1 = '_' then none
        else if q.2 = '_' then some q.1.toUpper
        else some q.1) := by
  induction l with
  | nil => intro p; simp [getSchemaNameGo]
  | cons c rest ih =>
    intro p
    by_cases hc : c = '_'
    · subst hc
      have h := ih '_'
      simp only [beq_self_eq_true] at h
      by_cases hp : p = '_' <;>
        simp [getSchemaNameGo, List.zip_cons_cons, List.filterMap_cons, hp, h]
    · have h := ih c
      have hcf : (c == '_') = false := by simp [hc]
      rw [hcf] at h
      by_cases hp : p = '_' <;>
        simp [getSchemaNameGo, List.zip_cons_cons, List.filterMap_cons, hp, hc, h]

/-- `get_schema_name` computes exactly the spec's wire-name transform. -/
theorem get_schema_name_eq_spec (s : String) :
    get_schema_name s = wire_name_spec s := by
  have h := getSchemaNameGo_eq_zip s.data ' '
  have hb : ((' ' == '_') : Bool) = false := by decide
  rw [hb] at h
  unfold get_schema_name wire_name_spec
  exact congrArg String.mk h

/-- Claim C5: the wire-name transform of the derive macro is exactly the
deterministic function that deletes every underscore and capitalizes the
ASCII character immediately following each deleted underscore, and nothing
else; in particular `schema_string` maps to `schemaString` and `id` is left
unchanged. -/
theorem claim_C5 :
    (∀ s : String, get_schema_name s = wire_name_spec s) ∧
    get_schema_name "schema_string" = "schemaString" ∧
    get_schema_name "id" = "id" :=
  ⟨get_schema_name_eq_spec, by decide, by decide⟩

/-- Claim C9: `read_parquet_files` succeeds on every input list, yielding no
results for an empty list and otherwise exactly one result per input file, in
input order, each obtained by reading that file's location. -/
theorem claim_C9 {α : Type} (tryCreateFromParquet : StructType → String → Except Error α)
    (files : List FileMeta) (schema : StructType) :
    read_parquet_files tryCreateFromParquet files schema =
      .ok (files.map fun file => tryCreateFromParquet schema file.location) := by
  unfold read_parquet_files
  by_cases h : files.isEmpty
  · rw [List.isEmpty_iff] at h
    subst h
    simp
  · simp [h]

/-- The materialize loop after `n` pushes equals mapping `get` over
`0, ..., n-1`. -/
theorem materializeGo_eq_map (a : GenericListArrayI32) (row_index : Nat) :
    ∀ n, EngineList.materializeGo a row_index n =
      (List.range n).map (EngineList.get a row_index) := by
  intro n
  induction n with
  | zero => simp [EngineList.materializeGo]
  | succ n ih => simp [EngineList.materializeGo, List.range_succ, ih]

/-- Claim C10: for every list column and valid row index, `materialize`
returns exactly `[get(row, 0), ..., get(row, len(row) - 1)]`, and its length
equals `len(row)`. -/
theorem claim_C10 (a : GenericListArrayI32) (row_index : Nat)
    (_h : row_index < a.rows.length) :
    EngineList.materialize a row_index =
      (List.range (EngineList.len a row_index)).map (EngineList.get a row_index) ∧
    (EngineList.materialize a row_index).length = EngineList.len a row_index := by
  constructor
  · exact materializeGo_eq_map a row_index _
  · rw [EngineList.materialize, materializeGo_eq_map]
    simp

/-- Witness for claim C10 at a concrete two-element row. -/
theorem claim_C10_witness :
    EngineList.materialize ⟨[["c1", "c2"]]⟩ 0 =
      (List.range (EngineList.len ⟨[["c1", "c2"]]⟩ 0)).map (EngineList.get ⟨[["c1", "c2"]]⟩ 0) ∧
    (EngineList.materialize ⟨[["c1", "c2"]]⟩ 0).length = EngineList.len ⟨[["c1", "c2"]]⟩ 0 :=
  claim_C10 ⟨[["c1", "c2"]]⟩ 0 (by decide)

/-- Claim C7: each "next" call on either boundary iterator yields the next
item — returning the continue flag after invoking the caller's visitor
exactly once with that item — or, on an exhausted sequence, returns the stop
flag without invoking the visitor at all; in particular with zero entries
the files iterator is immediately exhausted and never invokes the
callback. -/
theorem claim_C7 :
    (∀ (α : Type) (s : HandleState) (item : α) (rest : List (Except String α)),
        (kernel_scan_data_next_impl s (.ok item :: rest)).ret = .ok true ∧
        (kernel_scan_data_next_impl s (.ok item :: rest)).calls.map Prod.snd = [item] ∧
        (kernel_scan_data_next_impl s (.ok item :: rest)).rest = rest) ∧
    (∀ (α : Type) (s : HandleState),
        (kernel_scan_data_next_impl s ([] : List (Except String α))).ret = .ok false ∧
        (kernel_scan_data_next_impl s ([] : List (Except String α))).calls = []) ∧
    (∀ (add : Add) (rest : List (Except String Add)),
        (kernel_scan_files_next_impl (.ok add :: rest)).ret = .ok true ∧
        (kernel_scan_files_next_impl (.ok add :: rest)).calls = [add.path] ∧
        (kernel_scan_files_next_impl (.ok add :: rest)).rest = rest) ∧
    ((kernel_scan_files_next_impl []).ret = .ok false ∧
     (kernel_scan_files_next_impl []).calls = []) := by
  refine ⟨fun α s item rest => ?_, fun α s => ?_, fun add rest => ?_, ?_⟩ <;>
    simp [kernel_scan_data_next_impl, kernel_scan_files_next_impl]

/-- Claim C8 is violated by the code: after a `rust_callback` step completes,
the transient partition-value-map handle allocated for the callback is still
live (only the deletion-vector handle is dropped), evaluated here at a
concrete file entry from a fresh handle state. -/
theorem claim_C8_bug :
    ((rust_callback ⟨0, []⟩ "part-00000.parquet" 100 () []).2.mapHandle ∈
      (rust_callback ⟨0, []⟩ "part-00000.parquet" 100 () []).1.live) ∧
    ((rust_callback ⟨0, []⟩ "part-00000.parquet" 100 () []).2.dvHandle ∉
      (rust_callback ⟨0, []⟩ "part-00000.parquet" 100 () []).1.live) := by
  decide

/-- Claim C6: resolving an absent deletion-vector descriptor answers "all
rows live" for every resolver; a present descriptor whose decoded bitmap's
popcount equals the declared cardinality resolves to that bitmap; a popcount
mismatch fails with `MalformedDeletionVector`; and every successfully
resolved bitmap has exactly `cardinality` set (excluded) bits. -/
theorem claim_C6 :
    (∀ readBitmap, resolve_dv readBitmap none = .ok none) ∧
    (∀ readBitmap (d : DeletionVectorDescriptor) (bits : List Bool),
        readBitmap d = .ok bits →
          (bits.count true = d.cardinality →
            resolve_dv readBitmap (some d) = .ok (some bits)) ∧
          (bits.count true ≠ d.cardinality →
            ∃ msg, resolve_dv readBitmap (some d) = .error (.malformedDeletionVector msg))) ∧
    (∀ readBitmap (d : DeletionVectorDescriptor) (v : List Bool),
        resolve_dv readBitmap (some d) = .ok (some v) → v.count true = d.cardinality) := by
  refine ⟨fun readBitmap => rfl, fun readBitmap d bits hread => ⟨fun heq => ?_, fun hne => ?_⟩,
    fun readBitmap d v hres => ?_⟩
  · simp [resolve_dv, hread, heq]
  · exact ⟨"Deletion vector popcount does not match declared cardinality",
      by simp [resolve_dv, hread, hne]⟩
  · simp only [resolve_dv] at hres
    rcases hb : readBitmap d with e | bits <;> rw [hb] at hres <;> dsimp only at hres
    · simp at hres
    · by_cases hc : bits.count true = d.cardinality
      · rw [if_pos hc] at hres
        simp at hres
        rw [← hres]
        exact hc
      · rw [if_neg hc] at hres
        simp at hres

/-- Witness for claim C6: a descriptor with cardinality 3 resolves to the
3-set-bit bitmap; the same bitmap against a cardinality-2 descriptor fails
with `MalformedDeletionVector`; an absent descriptor resolves to `none`. -/
theorem claim_C6_witness :
    resolve_dv (fun _ => .ok [true, false, true, true]) none = .ok none ∧
    resolve_dv (fun _ => .ok [true, false, true, true])
      (some ⟨"u", "ab^-c", none, 40, 3⟩) = .ok (some [true, false, true, true]) ∧
    (∃ msg, resolve_dv (fun _ => .ok [true, false, true, true])
      (some ⟨"u", "ab^-c", none, 40, 2⟩) = .error (.malformedDeletionVector msg)) :=
  ⟨claim_C6.1 _,
   (claim_C6.2.1 _ ⟨"u", "ab^-c", none, 40, 3⟩ _ rfl).1 (by decide),
   (claim_C6.2.1 _ ⟨"u", "ab^-c", none, 40, 2⟩ _ rfl).2 (by decide)⟩

/-- Claim C4 as stated is false: the log schema does not contain a field for
every one of the ten action kinds — `checkpointMetadata` and `sidecar` are
absent from it. -/
theorem claim_C4_counterexample :
    ¬ ("checkpointMetadata" ∈ LOG_SCHEMA.map StructField.name ∧
       "sidecar" ∈ LOG_SCHEMA.map StructField.name) := by
  decide

/-- Claim C4 (amended): the log schema is the struct over exactly eight
action kinds — add, cdc, commitInfo, domainMetadata, metaData, protocol,
remove, txn, in that order — while the CheckpointMetadata and Sidecar action
schemas exist as constants but are not part of it. -/
theorem claim_C4 :
    LOG_SCHEMA.map StructField.name =
      ["add", "cdc", "commitInfo", "domainMetadata", "metaData", "protocol",
       "remove", "txn"] ∧
    StructField.name CHECKPOINT_METADATA_FIELD = "checkpointMetadata" ∧
    StructField.name SIDECAR_FIELD = "sidecar" ∧
    "checkpointMetadata" ∉ LOG_SCHEMA.map StructField.name ∧
    "sidecar" ∉ LOG_SCHEMA.map StructField.name := by
  refine ⟨by decide, by decide, by decide, by decide, by decide⟩

/-- Looking a column up with an absent container yields nothing. -/
theorem lookup_column_absent (name : String) : lookup_column none name = none := rfl

/-- A found column whose native type is exactly the null type is filtered out
of the lookup, i.e. treated as not found. -/
theorem lookup_column_of_null (c : Container) (name : String) (col : ArrowColumn)
    (hcol : column_by_name c name = some col) (hnull : arrowTypeOf col = .null) :
    lookup_column (some c) name = none := by
  simp [lookup_column, hcol, hnull, Option.filter, arrowEq]

/-- One unfolding step of the extraction loop. -/
theorem extract_columns_from_array_cons (f : StructField) (rest : List StructField)
    (array : Option Container) :
    extract_columns_from_array (f :: rest) array =
      match extract_field f array with
      | .error e => .error e
      | .ok accs =>
        match extract_columns_from_array rest array with
        | .error e => .error e
        | .ok accs2 => .ok (accs ++ accs2) := by
  rw [extract_columns_from_array]

/-- Behaviour of the per-field loop body when the column is not found. -/
theorem extract_field_not_found (name : String) (dt : DataType) (nullable : Bool)
    (array : Option Container) (hnf : lookup_column array name = none) :
    extract_field (name, dt, nullable) array =
      (if array.isNone || nullable then
        match dt with
        | .struct inner => extract_columns_from_array inner none
        | _ => .ok [.nullAcc]
      else .error (.missingData (msgMissingRequired name))) := by
  cases dt <;> simp [extract_field, hnf]

/-- Extracting any schema against an absent container never errors and
produces exactly one null accessor per leaf of the schema. -/
theorem extract_columns_from_array_absent (fields : List StructField) :
    extract_columns_from_array fields none =
      .ok (List.replicate (leafCountFields fields) GetDataRef.nullAcc) := by
  suffices H : ∀ (n : Nat) (fs : List StructField), sizeOf fs ≤ n →
      extract_columns_from_array fs none =
        .ok (List.replicate (leafCountFields fs) GetDataRef.nullAcc) by
    exact H (sizeOf fields) fields le_rfl
  intro n
  induction n with
  | zero =>
    intro fs h
    exfalso
    cases fs <;> simp at h
  | succ n ih =>
    intro fs h
    rcases fs with _ | ⟨⟨name, dt, nullable⟩, rest⟩
    · simp [extract_columns_from_array, leafCountFields]
    · have hrest : sizeOf rest ≤ n := by
        simp at h
        omega
      rw [extract_columns_from_array_cons,
          extract_field_not_found name dt nullable none (lookup_column_absent name)]
      simp only [Option.isNone_none, Bool.true_or, if_true]
      cases dt with
      | struct inner =>
        have hinner : sizeOf inner ≤ n := by
          simp only [List.cons.sizeOf_spec, Prod.mk.sizeOf_spec,
            DataType.struct.sizeOf_spec] at h
          omega
        dsimp only
        rw [ih inner hinner]
        dsimp only
        rw [ih rest hrest]
        dsimp only
        rw [show leafCountFields ((name, DataType.struct inner, nullable) :: rest) =
              leafCountFields inner + leafCountFields rest from by
            simp [leafCountFields]]
        rw [List.replicate_add]
      | primitive p =>
        dsimp only
        rw [ih rest hrest]
        dsimp only
        rw [show leafCountFields ((name, DataType.primitive p, nullable) :: rest) =
              1 + leafCountFields rest from by
            simp [leafCountFields]]
        rw [List.replicate_add]
        rfl
      | array et en =>
        dsimp only
        rw [ih rest hrest]
        dsimp only
        rw [show leafCountFields ((name, DataType.array et en, nullable) :: rest) =
              1 + leafCountFields rest from by
            simp [leafCountFields]]
        rw [List.replicate_add]
        rfl
      | map kt vt vn =>
        dsimp only
        rw [ih rest hrest]
        dsimp only
        rw [show leafCountFields ((name, DataType.map kt vt vn, nullable) :: rest) =
              1 + leafCountFields rest from by
            simp [leafCountFields]]
        rw [List.replicate_add]
        rfl

/-- Claim C1: when a field is not found in the container and the container is
absent or the field is nullable, extraction of that field does not error: a
struct field recurses with an absent container, yielding one null accessor
per leaf beneath it, and any other field emits exactly one null placeholder
accessor. -/
theorem claim_C1 (f : StructField) (array : Option Container)
    (hnf : lookup_column array (StructField.name f) = none)
    (hcond : array = none ∨ StructField.isNullable f = true) :
    extract_field f array =
      .ok (match StructField.dataType f with
           | .struct inner => List.replicate (leafCountFields inner) GetDataRef.nullAcc
           | _ => [GetDataRef.nullAcc]) := by
  obtain ⟨name, dt, nullable⟩ := f
  simp only [StructField.name] at hnf
  rw [extract_field_not_found name dt nullable array hnf]
  have hb : (array.isNone || nullable) = true := by
    rcases hcond with h | h
    · subst h; rfl
    · simp only [StructField.isNullable] at h
      simp [h]
  rw [hb, if_pos rfl]
  cases dt <;> simp [StructField.dataType, extract_columns_from_array_absent]

/-- Witness for claim C1: extracting the nullable `deletionVector` struct
field against a container that lacks it yields five null accessors, one per
leaf, with no error. -/
theorem claim_C1_witness :
    lookup_column (some []) (StructField.name deletion_vector_field) = none ∧
    StructField.isNullable deletion_vector_field = true ∧
    extract_field deletion_vector_field (some []) =
      .ok (List.replicate 5 GetDataRef.nullAcc) := by
  refine ⟨rfl, rfl, ?_⟩
  have h := claim_C1 deletion_vector_field (some []) rfl (Or.inr rfl)
  simpa [deletion_vector_field, StructField.dataType, leafCountFields,
    DataType.STRING, DataType.INTEGER, DataType.LONG] using h

/-- Claim C2: a field that is not found in a present container — including a
column present but of native null type — and is declared non-nullable makes
extraction fail with the missing-required-data error; no accessor is emitted
for it. -/
theorem claim_C2 (f : StructField) (c : Container)
    (hnf : lookup_column (some c) (StructField.name f) = none ∨
      ∃ col, column_by_name c (StructField.name f) = some col ∧ arrowTypeOf col = .null)
    (hreq : StructField.isNullable f = false) :
    extract_field f (some c) =
      .error (.missingData (msgMissingRequired (StructField.name f))) := by
  obtain ⟨name, dt, nullable⟩ := f
  simp only [StructField.name] at hnf ⊢
  simp only [StructField.isNullable] at hreq
  subst hreq
  have hnone : lookup_column (some c) name = none := by
    rcases hnf with h | ⟨col, hcol, hnull⟩
    · exact h
    · exact lookup_column_of_null c name col hcol hnull
  rw [extract_field_not_found name dt false (some c) hnone]
  simp

/-- Witness for claim C2: the required `path` string field backed by a native
null-typed column fails with `MissingData`. -/
theorem claim_C2_witness :
    column_by_name [("path", ArrowColumn.nullCol)] "path" = some .nullCol ∧
    arrowTypeOf ArrowColumn.nullCol = .null ∧
    extract_field ("path", DataType.STRING, false) (some [("path", ArrowColumn.nullCol)]) =
      .error (.missingData (msgMissingRequired "path")) :=
  ⟨rfl, rfl,
   claim_C2 ("path", DataType.STRING, false) [("path", ArrowColumn.nullCol)]
     (Or.inr ⟨ArrowColumn.nullCol, rfl, rfl⟩) rfl⟩

/-- `arrowEq` and `arrowFieldsEq` decide propositional equality. -/
theorem arrowEq_sound_aux : ∀ n : Nat,
    (∀ (a b : ArrowDataType), sizeOf a ≤ n → (arrowEq a b = true ↔ a = b)) ∧
    (∀ (l1 l2 : List (String × ArrowDataType)), sizeOf l1 ≤ n →
      (arrowFieldsEq l1 l2 = true ↔ l1 = l2)) := by
  intro n
  induction n with
  | zero =>
    constructor
    · intro a b h
      exfalso
      cases a <;> simp at h
    · intro l1 l2 h
      exfalso
      cases l1 <;> simp at h
  | succ n ih =>
    obtain ⟨ihA, ihL⟩ := ih
    constructor
    · intro a b h
      cases a <;> cases b <;> try (simp [arrowEq]; done)
      case list.list e1 e2 =>
        have hs : sizeOf e1 ≤ n := by
          simp only [ArrowDataType.list.sizeOf_spec] at h
          omega
        simp [arrowEq, ihA e1 e2 hs]
      case map.map k1 v1 k2 v2 =>
        have hk : sizeOf k1 ≤ n := by
          simp only [ArrowDataType.map.sizeOf_spec] at h
          omega
        have hv : sizeOf v1 ≤ n := by
          simp only [ArrowDataType.map.sizeOf_spec] at h
          omega
        simp [arrowEq, ihA k1 k2 hk, ihA v1 v2 hv]
      case struct.struct f1 f2 =>
        have hf : sizeOf f1 ≤ n := by
          simp only [ArrowDataType.struct.sizeOf_spec] at h
          omega
        simp [arrowEq, ihL f1 f2 hf]
    · intro l1 l2 h
      rcases l1 with _ | ⟨⟨n1, t1⟩, r1⟩
      · cases l2 <;> simp [arrowFieldsEq]
      · rcases l2 with _ | ⟨⟨n2, t2⟩, r2⟩
        · simp [arrowFieldsEq]
        · have ht : sizeOf t1 ≤ n := by
            simp only [List.cons.sizeOf_spec, Prod.mk.sizeOf_spec] at h
            omega
          have hr : sizeOf r1 ≤ n := by
            simp only [List.cons.sizeOf_spec, Prod.mk.sizeOf_spec] at h
            omega
          simp [arrowFieldsEq, ihA t1 t2 ht, ihL r1 r2 hr, and_assoc]

/-- The arrow structural equality test is propositional equality. -/
theorem arrowEq_iff (a b : ArrowDataType) : arrowEq a b = true ↔ a = b :=
  (arrowEq_sound_aux (sizeOf a)).1 a b le_rfl

/-- The "both types resolve but differ" message is never equal to the
"declared type has no native representation" message: the two diagnostics
are distinguishable. -/
theorem msgMismatch_ne_msgUnsupported (n1 n2 : String) (d1 d2 : DataType)
    (a : ArrowDataType) (e : String) :
    msgMismatch n1 d1 a ≠ msgUnsupported n2 d2 e := by
  intro hEq
  have h := congrArg (fun s => s.data.head?) hEq
  simp only [msgMismatch, msgUnsupported, String.data_append] at h
  simp at h

/-- `get_error_for_types` always produces an `UnexpectedColumnType` error
whose message is determined by whether the declared type renders to an arrow
type and whether that rendering differs from the native one. -/
theorem get_error_characterization (d : DataType) (a : ArrowDataType) (n : String) :
    ∃ msg, get_error_for_types d a n = .unexpectedColumnType msg ∧
      ((∃ e, toArrow d = .ok e ∧ e ≠ a ∧ msg = msgMismatch n d a) ∨
       (toArrow d = .ok a ∧ msg = msgCannotExtract n d) ∨
       (∃ err, toArrow d = .error err ∧ msg = msgUnsupported n d err)) := by
  unfold get_error_for_types
  rcases ht : toArrow d with err | e
  · exact ⟨msgUnsupported n d err, rfl, .inr (.inr ⟨err, rfl, rfl⟩)⟩
  · dsimp only
    by_cases he : arrowEq e a = true
    · have hea : e = a := (arrowEq_iff e a).1 he
      rw [if_pos he]
      subst hea
      exact ⟨msgCannotExtract n d, rfl, .inr (.inl ⟨rfl, rfl⟩)⟩
    · have hne : e ≠ a := fun hcontra => he (by rw [hcontra]; exact (arrowEq_iff a a).2 rfl)
      rw [if_neg he]
      exact ⟨msgMismatch n d a, rfl, .inl ⟨e, rfl, hne, rfl⟩⟩

/-- Claim C3: any (native, declared) pairing outside the exhaustive match
table makes `extract_column` fail with the `get_error_for_types`
type-mismatch error; that error distinguishes the "declared type has no
native representation" case from the "both types resolve to representations
that differ" case, naming both the declared and native types in the
latter. -/
theorem claim_C3 (f : StructField) (col : ArrowColumn)
    (h : matchesExtractTable (arrowTypeOf col) (StructField.dataType f) = false) :
    extract_column f col =
      .error (get_error_for_types (StructField.dataType f) (arrowTypeOf col)
        (StructField.name f)) ∧
    (∃ msg, get_error_for_types (StructField.dataType f) (arrowTypeOf col)
        (StructField.name f) = .unexpectedColumnType msg ∧
      ((∃ e, toArrow (StructField.dataType f) = .ok e ∧ e ≠ arrowTypeOf col ∧
          msg = msgMismatch (StructField.name f) (StructField.dataType f) (arrowTypeOf col)) ∨
       (toArrow (StructField.dataType f) = .ok (arrowTypeOf col) ∧
          msg = msgCannotExtract (StructField.name f) (StructField.dataType f)) ∨
       (∃ err, toArrow (StructField.dataType f) = .error err ∧
          msg = msgUnsupported (StructField.name f) (StructField.dataType f) err))) ∧
    (∀ e2, msgMismatch (StructField.name f) (StructField.dataType f) (arrowTypeOf col) ≠
        msgUnsupported (StructField.name f) (StructField.dataType f) e2) := by
  refine ⟨?_, get_error_characterization _ _ _,
    fun e2 => msgMismatch_ne_msgUnsupported _ _ _ _ _ _⟩
  obtain ⟨name, dt, nullable⟩ := f
  simp only [StructField.dataType, StructField.name] at h ⊢
  cases col <;> rcases dt with p | inner | ⟨et, en⟩ | ⟨kt, vt, vn⟩ <;> try cases p
  all_goals
    first
    | (exfalso; simp [arrowTypeOf, matchesExtractTable] at h; done)
    | simp [extract_column, arrowTypeOf]

/-- Witness for claim C3 at the spec's own example: an Integer-declared field
backed by a native string column fails with the mismatch error naming both
types. -/
theorem claim_C3_witness :
    matchesExtractTable (arrowTypeOf ArrowColumn.utf8Col)
      (StructField.dataType ("count", DataType.INTEGER, false)) = false ∧
    extract_column ("count", DataType.INTEGER, false) ArrowColumn.utf8Col =
      .error (.unexpectedColumnType
        (msgMismatch "count" DataType.INTEGER ArrowDataType.utf8)) := by
  constructor
  · rfl
  · have h := (claim_C3 ("count", DataType.INTEGER, false) ArrowColumn.utf8Col rfl).1
    rw [h]
    rfl

end DeltaKernel
